import Mathlib

/-!
Shallow embedding of `src/ccnx/forwarder/athena/athena_TransportLinkModuleTCP.c`.

The module drives TCP link I/O through OS system calls.  Each embedded
operation takes the results those system calls would deliver as an explicit
oracle (a "world"): a `recv`, `read`, `write`, `poll`, `accept`, `connect`,
... result becomes a constructor or a numeric field, and the C control flow
is translated branch for branch.  Observable effects (statistics counters,
the transport-link error and send events, which resources were released or
closed) are returned in outcome records.  All definitions are executable and
structurally recursive; retry loops carry a fuel argument that provably
suffices because every continuing iteration consumes at least one byte.
-/

/-! ## Statistics counters (struct `_TCPLinkData._stats`, lines 76-84) -/

/-- The per-link failure counters of `_TCPLinkData` (lines 76-84). -/
structure Stats where
  receive_ReadHeaderFailure : Nat
  receive_BadMessageLength : Nat
  receive_ReadError : Nat
  receive_ReadWouldBlock : Nat
  receive_ShortRead : Nat
  receive_ShortWrite : Nat
  receive_DecodeFailed : Nat
deriving DecidableEq, Repr

/-- Freshly allocated, zeroed counters (`parcMemory_AllocateAndClear`, line 90). -/
def Stats.zero : Stats := ⟨0, 0, 0, 0, 0, 0, 0⟩

/-! ## System-call result types (the oracle fed to the embedded operations) -/

/-- Result of a `recv`/`read` system call: `-1` (`rerr`) or a byte count. -/
inductive RecvRes where
  | rerr : RecvRes
  | bytes : Nat → RecvRes
deriving DecidableEq, Repr

/-- Result of `poll(&pollfd, 1, 0)` in `_linkIsEOF` (line 224): an error
(`-1`), no pending events (`0`), or a positive event count where the flag
records whether `POLLIN` is set in `revents`. -/
inductive PollRes where
  | perr : PollRes
  | timeoutRes : PollRes
  | ready : Bool → PollRes
deriving DecidableEq, Repr

/-- Result of the one-byte `MSG_PEEK` `recv` in `_linkIsEOF` (line 234):
an error, whose flag records whether `errno` is `EAGAIN`/`EWOULDBLOCK`,
or a byte count (`0` or `1`). -/
inductive EofPeek where
  | peekErr : Bool → EofPeek
  | peekBytes : Nat → EofPeek
deriving DecidableEq, Repr

/-! ## EOF Detector: `_linkIsEOF` (lines 217-247) -/

/-- `_linkIsEOF` (lines 217-247), branch for branch: a poll error returns
true (close the link); zero pending events returns false (a genuine zero
read); with `POLLIN` set, a one-byte non-consuming peek decides: would-block
counts the statistic and returns false, any other error returns true, zero
bytes returns true, and anything else falls through to false.  A positive
poll without `POLLIN` also falls through to false (line 246). -/
def linkIsEOF (p : PollRes) (pk : EofPeek) (s : Stats) : Bool × Stats :=
  match p with
  | .perr => (true, s)
  | .timeoutRes => (false, s)
  | .ready pollin =>
    if pollin then
      match pk with
      | .peekErr wouldBlock =>
        if wouldBlock then
          (false, { s with receive_ReadWouldBlock := s.receive_ReadWouldBlock + 1 })
        else (true, s)
      | .peekBytes n => if n = 0 then (true, s) else (false, s)
    else (false, s)

/-- Spec-side definition, written from the words of C1 and spec section 4.6,
to be compared with `linkIsEOF`: "a zero-timeout readability poll that
reports not-ready yields not-EOF; if ready, a one-byte non-consuming peek
that would block yields not-EOF, a peek returning zero bytes yields EOF, and
any other peek error yields EOF".  `none` on the inputs the sentence does
not classify (a poll error; a positive poll without a read event). -/
def specEOFClassification (p : PollRes) (pk : EofPeek) : Option Bool :=
  match p, pk with
  | .timeoutRes, _ => some false
  | .ready true, .peekErr wouldBlock => some (if wouldBlock then false else true)
  | .ready true, .peekBytes n => some (decide (n = 0))
  | _, _ => none

/-! ## Framing Engine, receive: `_TCPReceive` (lines 249-353) -/

/-- `MAXPATHLEN`, the size of the `trash` buffer of the flush loop
(line 295). -/
def MAXPATHLEN : Nat := 1024

/-- The flush loop of `_TCPReceive` (lines 297-299):
`while (read(fd, trash, sizeof(trash)) == sizeof(trash))`.  The stream is
modelled by the count of currently buffered bytes: each `read` of the loop
returns `min MAXPATHLEN avail`, and the loop repeats while a read returned a
full `MAXPATHLEN` chunk.  Returns the bytes left buffered when the loop
stops.  The fuel argument bounds the iterations; `fuel = avail` always
suffices since a continuing iteration consumes `MAXPATHLEN ≥ 1` bytes, and
the fuel-exhausted value agrees with the loop exit on an empty stream. -/
def flushLoopF : Nat → Nat → Nat
  | 0, avail => avail - min MAXPATHLEN avail
  | fuel+1, avail =>
    let chunk := min MAXPATHLEN avail
    if chunk = MAXPATHLEN then flushLoopF fuel (avail - chunk) else avail - chunk

/-- What one `_TCPReceive` call did: the (possibly null) returned message
(`some ()` only when a message was fully read and decoded), whether
`AthenaTransportLinkEvent_Error` was raised on the link, whether the link's
descriptor was closed (`_TCPReceive` never closes it; only `_TCPClose`
does), the updated counters, and `some r` when the flush loop ran and left
`r` buffered bytes. -/
structure ReceiveOutcome where
  message : Option Unit
  errorEvent : Bool
  closedFd : Bool
  stats : Stats
  flushed : Option Nat
deriving DecidableEq, Repr

/-- Lines 340-350 of `_TCPReceive`: decode the fully read buffer; a null
decode counts `receive_DecodeFailed` and the null result is still
returned. -/
def finishBody (decodeOk : Bool) (s : Stats) : ReceiveOutcome :=
  if decodeOk then ⟨some (), false, false, s, none⟩
  else ⟨none, false, false, { s with receive_DecodeFailed := s.receive_DecodeFailed + 1 }, none⟩

/-- The short-read retry loop of `_TCPReceive` (lines 325-334): while fewer
than `messageLength` bytes are read, the next `read` result (oracle `reads`,
indexed by call) is taken; a zero or negative result counts
`receive_ShortRead` and aborts with no message; a positive count
accumulates.  On completion the message is decoded (`finishBody`).  Fuel
as in `flushLoopF`: `messageLength - readCount` suffices. -/
def bodyLoopF (reads : Nat → Int) (messageLength : Nat) (decodeOk : Bool) :
    Nat → Nat → Nat → Stats → ReceiveOutcome
  | 0, _, _, s => finishBody decodeOk s
  | fuel+1, readCount, i, s =>
    if readCount < messageLength then
      if reads i ≤ 0 then
        ⟨none, false, false, { s with receive_ShortRead := s.receive_ShortRead + 1 }, none⟩
      else bodyLoopF reads messageLength decodeOk fuel (readCount + (reads i).toNat) (i + 1) s
    else finishBody decodeOk s

/-- The system-call results one `_TCPReceive` call can consume:
the `MSG_PEEK` header `recv` result (line 260), the `poll` and one-byte
peek results `_linkIsEOF` would use (lines 224, 234), the total packet
length the codec decodes from a full header (line 288), the bytes buffered
on the stream when the flush loop runs (line 297), the first consuming
`read` result (line 307) and the results of the short-read retry loop
(line 326), and whether the codec decodes the complete buffer (line 341). -/
structure ReceiveWorld where
  fixedHeaderLength : Nat
  headerPeek : RecvRes
  pollRes : PollRes
  eofPeek : EofPeek
  packetLength : Nat
  flushAvail : Nat
  bodyFirst : RecvRes
  bodyRest : Nat → Int
  decodeOk : Bool

/-- `_TCPReceive` (lines 249-353), branch for branch: a header-peek error
counts `receive_ReadError`; a zero-byte peek consults `_linkIsEOF` and
raises the error event exactly when it returns true; a short header peek
counts `receive_ReadHeaderFailure`; a decoded length below the header
length counts `receive_BadMessageLength` and flushes the link; otherwise
the body is read (first `read`, then the short-read loop) and decoded.
Every path returns without closing the descriptor. -/
def tcpReceive (w : ReceiveWorld) (s : Stats) : ReceiveOutcome :=
  match w.headerPeek with
  | .rerr => ⟨none, false, false, { s with receive_ReadError := s.receive_ReadError + 1 }, none⟩
  | .bytes n =>
    if n = 0 then
      let es := linkIsEOF w.pollRes w.eofPeek s
      ⟨none, es.1, false, es.2, none⟩
    else if n ≠ w.fixedHeaderLength then
      ⟨none, false, false,
        { s with receive_ReadHeaderFailure := s.receive_ReadHeaderFailure + 1 }, none⟩
    else if w.packetLength < w.fixedHeaderLength then
      ⟨none, false, false,
        { s with receive_BadMessageLength := s.receive_BadMessageLength + 1 },
        some (flushLoopF w.flushAvail w.flushAvail)⟩
    else
      match w.bodyFirst with
      | .rerr =>
        ⟨none, false, false, { s with receive_ReadError := s.receive_ReadError + 1 }, none⟩
      | .bytes 0 => ⟨none, false, false, s, none⟩
      | .bytes (m+1) =>
        bodyLoopF w.bodyRest w.packetLength w.decodeOk
          (w.packetLength - (m + 1)) (m + 1) 0 s

/-! ## Framing Engine, send: `_TCPSend` (lines 143-215) -/

/-- What one `_TCPSend` call did: the returned value (`0` success, `-1`
failure), whether `AthenaTransportLinkEvent_Error` was raised, the growth of
`receive_ShortWrite`, whether the wire-format buffer was released, and how
many `write` calls were made. -/
structure SendOutcome where
  ret : Int
  errorEvent : Bool
  shortWriteDelta : Nat
  bufferReleased : Bool
  calls : Nat
deriving DecidableEq, Repr

/-- The write loop of `_TCPSend` (lines 187-211): while fewer than `length`
bytes are written, the next `write` result is `writes k`; on `count <= 0`
the attempt ends with `-1` after releasing the buffer — a `-1` result raises
the error event exactly when `errno` is `EPIPE` (`epipe k`), any other
non-positive result counts `receive_ShortWrite`; a positive count
accumulates and the loop retries.  Once `length` bytes are written the
buffer is released and `0` returned.  Fuel: `length - writeCount` always
suffices (a continuing iteration writes at least one byte), and the
fuel-exhausted value agrees with the loop exit. -/
def sendLoopF (writes : Nat → Int) (epipe : Nat → Bool) (length : Nat) :
    Nat → Nat → Nat → SendOutcome
  | 0, _, k => ⟨0, false, 0, true, k⟩
  | fuel+1, writeCount, k =>
    if writeCount < length then
      if writes k ≤ 0 then
        if writes k = -1 then ⟨-1, epipe k, 0, true, k + 1⟩
        else ⟨-1, false, 1, true, k + 1⟩
      else sendLoopF writes epipe length fuel (writeCount + (writes k).toNat) (k + 1)
    else ⟨0, false, 0, true, k⟩

/-- `_TCPSend` (lines 143-215) on a wire-format buffer of `length` bytes:
runs the write loop from zero bytes written.  `writes k` is the result of
the k-th `write`/`send` system call and `epipe k` whether `errno` is `EPIPE`
after it. -/
def tcpSend (writes : Nat → Int) (epipe : Nat → Bool) (length : Nat) : SendOutcome :=
  sendLoopF writes epipe length length 0 0

/-- Sum of the bytes the first `n` write results starting at call `k`
delivered (negative results count zero bytes). -/
def sumWritesFrom (writes : Nat → Int) (k : Nat) : Nat → Nat
  | 0 => 0
  | n+1 => (writes k).toNat + sumWritesFrom writes (k + 1) n

/-! ## Name derivation: `_createNameFromLinkData` (lines 116-141) -/

/-- `_createNameFromLinkData` (lines 116-141): `myResult` and `peerResult`
are the `getnameinfo` return codes for the local and the peer endpoint
(zero on success), the host/port strings their output; `sprintf` becomes
string concatenation.  Both lookups succeeding yields the point-to-point
form, only the local one succeeding yields the listener form, and every
other case yields the fallback name. -/
def createNameFromLinkData (myResult peerResult : Int)
    (myHost myPort peerHost peerPort : String) : String :=
  if peerResult = 0 ∧ myResult = 0 then
    "tcp://" ++ myHost ++ ":" ++ myPort ++ "<->" ++ peerHost ++ ":" ++ peerPort
  else if myResult = 0 then
    "tcp://" ++ myHost ++ ":" ++ myPort
  else
    "tcp://Unknown"

/-! ## Connection Establisher: `_TCPOpenConnection` (lines 407-477),
`_TCPOpenListener` (lines 537-634) -/

/-- The step results one `_TCPOpenConnection` call can consume: whether
`socket` (line 416), `connect` (line 428), `_setSocketOptions` (line 435),
`getsockname` (line 444) and `athenaTransportLink_Create` (line 458)
succeed. -/
structure OpenConnWorld where
  socketOk : Bool
  connectOk : Bool
  sockOptOk : Bool
  getsocknameOk : Bool
  linkCreateOk : Bool
deriving DecidableEq, Repr

/-- Resource accounting for one open attempt: whether a Link was returned
to the caller, whether the `_TCPLinkData` allocation was freed
(`_TCPLinkData_Destroy`; on success it is owned by the Link instead),
whether a socket descriptor was created, and whether `close` was called on
it. -/
structure OpenResources where
  linkReturned : Bool
  linkDataFreed : Bool
  fdCreated : Bool
  fdClosed : Bool
deriving DecidableEq, Repr

/-- `_TCPOpenConnection` (lines 407-477), branch for branch.  On `socket`
failure the state is destroyed before any descriptor exists (lines
417-421).  On `connect` failure the state is destroyed and NULL returned
with no `close` call (lines 429-433).  On `_setSocketOptions` failure the
descriptor is closed and the state destroyed (lines 436-440).  On
`getsockname` failure the state is destroyed with no `close` call (lines
445-450).  On `athenaTransportLink_Create` failure the derived name and
state are deallocated with no `close` call (lines 462-468).  On success the
Link owns the state. -/
def tcpOpenConnection (w : OpenConnWorld) : OpenResources :=
  if ¬ w.socketOk then ⟨false, true, false, false⟩
  else if ¬ w.connectOk then ⟨false, true, true, false⟩
  else if ¬ w.sockOptOk then ⟨false, true, true, true⟩
  else if ¬ w.getsocknameOk then ⟨false, true, true, false⟩
  else if ¬ w.linkCreateOk then ⟨false, true, true, false⟩
  else ⟨true, false, true, false⟩

/-- The step results one `_TCPOpenListener` call can consume: whether
`socket` (line 550), `_setSocketOptions` (line 558), the two `fcntl` calls
(lines 566, 574), `bind` (line 584), `listen` (line 593) and
`athenaTransportLink_Create` (line 609) succeed. -/
structure OpenListenerWorld where
  socketOk : Bool
  sockOptOk : Bool
  fcntlGetOk : Bool
  fcntlSetOk : Bool
  bindOk : Bool
  listenOk : Bool
  linkCreateOk : Bool
deriving DecidableEq, Repr

/-- `_TCPOpenListener` (lines 537-634), branch for branch: every failure
after `socket` succeeded closes the descriptor and destroys the state
(lines 558-620); on success the Link owns the state and is marked
non-routable. -/
def tcpOpenListener (w : OpenListenerWorld) : OpenResources :=
  if ¬ w.socketOk then ⟨false, true, false, false⟩
  else if ¬ w.sockOptOk then ⟨false, true, true, true⟩
  else if ¬ w.fcntlGetOk then ⟨false, true, true, true⟩
  else if ¬ w.fcntlSetOk then ⟨false, true, true, true⟩
  else if ¬ w.bindOk then ⟨false, true, true, true⟩
  else if ¬ w.listenOk then ⟨false, true, true, true⟩
  else if ¬ w.linkCreateOk then ⟨false, true, true, true⟩
  else ⟨true, false, true, false⟩

/-! ## Accept Handler: `_TCPReceiveListener` (lines 479-535) -/

/-- The step results one `_TCPReceiveListener` call can consume: whether
`accept` (line 488), `athenaTransportLink_Clone` (line 501) and
`athenaTransportLink_AddLink` (line 517) succeed. -/
structure AcceptWorld where
  acceptOk : Bool
  cloneOk : Bool
  addLinkOk : Bool
deriving DecidableEq, Repr

/-- What one `_TCPReceiveListener` call did: the returned message (the
handler always returns NULL, line 534), whether a new Link was exposed
through `athenaTransportLink_AddLink`, whether the new `_TCPLinkData` was
freed, and whether the accepted descriptor was closed. -/
structure AcceptOutcome where
  message : Option Unit
  linkExposed : Bool
  newDataFreed : Bool
  newFdClosed : Bool
deriving DecidableEq, Repr

/-- `_TCPReceiveListener` (lines 479-535), branch for branch.  On `accept`
failure the fresh state is destroyed and no descriptor exists (lines
489-493).  On `athenaTransportLink_Clone` failure the derived name and the
state are deallocated and NULL returned with no `close` call on the
accepted descriptor (lines 506-512).  On `athenaTransportLink_AddLink`
failure the descriptor is closed, the state destroyed and the cloned link
released (lines 518-523).  On success the new Link is exposed.  Every path
returns NULL (line 534). -/
def tcpReceiveListener (w : AcceptWorld) : AcceptOutcome :=
  if ¬ w.acceptOk then ⟨none, false, true, false⟩
  else if ¬ w.cloneOk then ⟨none, false, true, false⟩
  else if ¬ w.addLinkOk then ⟨none, false, true, true⟩
  else ⟨none, true, false, false⟩

/-! ## Link state and locality: `_setConnectLinkState` (lines 365-384),
`_TCPOpen` force application (lines 739-742), `_TCPPoll` (lines 747-751) -/

/-- The forced-locality request parsed from a `local%3D` path segment:
`AthenaTransportLink_ForcedLocal`, `AthenaTransportLink_ForcedNonLocal`,
or zero (no forcing). -/
inductive LocalForce where
  | unforced : LocalForce
  | forcedLocal : LocalForce
  | forcedNonLocal : LocalForce
deriving DecidableEq, Repr

/-- Modelled from the spec: the Link handle owned by the transport-link
framework (`athena_TransportLink.c`, which is not under `src/`).  Spec
section 3 gives it locality flags (local/non-local, possibly forced) and
event state; `athenaTransportLink_SetLocal` sets the computed flag,
`athenaTransportLink_ForceLocal` records an override that wins over the
computed flag ("force locality classification regardless of computed
address equality", section 4.1), and `athenaTransportLink_SetEvent` raises
the send or error event. -/
structure LinkState where
  isLocal : Bool
  force : LocalForce
  sendEvent : Bool
  errorEvent : Bool
deriving DecidableEq, Repr

/-- Modelled from the spec: the locality classification the framework
reports for a Link — the forced value when an override was recorded, else
the computed flag. -/
def linkClassifiedLocal (l : LinkState) : Bool :=
  match l.force with
  | .unforced => l.isLocal
  | .forcedLocal => true
  | .forcedNonLocal => false

/-- `_setConnectLinkState` (lines 365-384): computes `isLocal` as equality
of the peer and local `sin_addr.s_addr` values (lines 376-379), sets it on
the link, and raises the send event (line 383).  Addresses are the 32-bit
`s_addr` values as naturals. -/
def setConnectLinkState (myAddr peerAddr : Nat) (l : LinkState) : LinkState :=
  { l with isLocal := decide (peerAddr = myAddr), sendEvent := true }

/-- Lines 739-742 of `_TCPOpen`: `if (result && forceLocal)
athenaTransportLink_ForceLocal(result, forceLocal)` — the override is
recorded only when the parsed flag is non-zero. -/
def applyOpenForce (f : LocalForce) (l : LinkState) : LinkState :=
  match f with
  | .unforced => l
  | _ => { l with force := f }

/-- `_TCPPoll` (lines 747-751): returns 0, touching nothing. -/
def tcpPoll (l : LinkState) (_timeoutMs : Int) : LinkState × Int := (l, 0)

/-! ## Address/Name Resolver: the path-segment loop of `_TCPOpen`
(lines 672-731) -/

/-- `tolower` on an ASCII character, as the C `strcasecmp` family applies
it. -/
def lowerChar (c : Char) : Char :=
  if 'A' ≤ c ∧ c ≤ 'Z' then Char.ofNat (c.toNat + 32) else c

/-- A string case-folded to a character list. -/
def lowerStr (s : String) : List Char := s.data.map lowerChar

/-- `strcasecmp(a, b) == 0`: the strings are equal up to ASCII case. -/
def eqCI (a b : String) : Bool := lowerStr a == lowerStr b

/-- `strncasecmp(s, pat, strlen(pat)) == 0`: `pat` is a case-insensitive
prefix of `s` (a shorter `s` fails at its terminator). -/
def startsWithCI (s pat : String) : Bool := (lowerStr pat).isPrefixOf (lowerStr s)

/-- `isspace` of the C locale: space, `\t`, `\n`, `\v`, `\f`, `\r`. -/
def isSpaceC (c : Char) : Bool :=
  c = ' ' || c = Char.ofNat 9 || c = Char.ofNat 10 || c = Char.ofNat 11 ||
  c = Char.ofNat 12 || c = Char.ofNat 13

/-- `sscanf(token, "%*[^%%]%%3D%s", out)` returning 1 (lines 691, 704):
`%*[^%]` consumes a non-empty maximal run of characters other than `%`,
the literal `%3D` must follow exactly (case-sensitively), and `%s` skips
whitespace and reads a non-empty run of non-whitespace characters into
`out`.  `none` when fewer than one assignment is made. -/
def scanPct3DValue (token : String) : Option String :=
  let cs := token.data
  let pre := cs.takeWhile (fun c => c ≠ '%')
  if pre.isEmpty then none
  else
    match cs.drop pre.length with
    | '%' :: '3' :: 'D' :: rest =>
      let v := (rest.dropWhile isSpaceC).takeWhile (fun c => ¬ isSpaceC c)
      if v.isEmpty then none else some ⟨v⟩
    | _ => none

/-- The transient parse result the segment loop accumulates (lines
672-676): listener mode, an optional explicit link name, and the
forced-locality request. -/
structure ParseConfig where
  listener : Bool
  linkName : Option String
  force : LocalForce
deriving DecidableEq, Repr

/-- The path-segment loop of `_TCPOpen` (lines 680-731), token for token:
a token equal (case-insensitively) to `listener` sets listener mode; a
token with prefix `name%3D` must scan a value, which becomes the link
name; a token with prefix `local%3D` must scan a value whose
case-insensitive prefix `false` or `true` selects the forced-locality
request; anything else — and every failed scan or unmatched value — sets
`errno = EINVAL` and returns NULL (`none`). -/
def parseTokens : List String → ParseConfig → Option ParseConfig
  | [], cfg => some cfg
  | t :: ts, cfg =>
    if eqCI t "listener" then parseTokens ts { cfg with listener := true }
    else if startsWithCI t "name%3D" then
      match scanPct3DValue t with
      | none => none
      | some v => parseTokens ts { cfg with linkName := some v }
    else if startsWithCI t "local%3D" then
      match scanPct3DValue t with
      | none => none
      | some v =>
        if startsWithCI v "false" then parseTokens ts { cfg with force := .forcedNonLocal }
        else if startsWithCI v "true" then parseTokens ts { cfg with force := .forcedLocal }
        else none
    else none

/-- A path segment on which the loop of `_TCPOpen` sets `errno = EINVAL`
and returns NULL: an unrecognized token, a `name%3D` token whose scan
fails, or a `local%3D` token whose scan fails or whose value has neither
`false` nor `true` as a case-insensitive prefix. -/
def badToken (t : String) : Bool :=
  if eqCI t "listener" then false
  else if startsWithCI t "name%3D" then (scanPct3DValue t).isNone
  else if startsWithCI t "local%3D" then
    match scanPct3DValue t with
    | none => true
    | some v => !(startsWithCI v "false" || startsWithCI v "true")
  else true

/-- What one `_TCPOpen` call did: whether a Link was returned, whether the
call failed in the segment loop with `errno = EINVAL`, whether a socket
creation was attempted (`_TCPOpenConnection` and `_TCPOpenListener` both
call `socket` unconditionally once entered; the segment loop never does),
which mode was selected, and the parsed force request and name override. -/
structure OpenOutcome where
  linkReturned : Bool
  einval : Bool
  socketAttempted : Bool
  listenerMode : Bool
  force : LocalForce
  linkName : Option String
deriving DecidableEq, Repr

/-- `_TCPOpen` (lines 642-745) from the segment loop on (the authority has
already been parsed and the hostname resolved, lines 647-670): parse the
path segments starting from the zeroed flags of lines 672-676; on a parse
failure return NULL with `errno = EINVAL` before any socket work; otherwise
run `_TCPOpenListener` or `_TCPOpenConnection` on the respective step
oracle and report its result together with the parsed configuration. -/
def tcpOpen (tokens : List String) (cw : OpenConnWorld) (lw : OpenListenerWorld) :
    OpenOutcome :=
  match parseTokens tokens ⟨false, none, .unforced⟩ with
  | none => ⟨false, true, false, false, .unforced, none⟩
  | some cfg =>
    if cfg.listener then
      ⟨(tcpOpenListener lw).linkReturned, false, true, true, cfg.force, cfg.linkName⟩
    else
      ⟨(tcpOpenConnection cw).linkReturned, false, true, false, cfg.force, cfg.linkName⟩

/-- Modelled from the spec: the state of a Link as
`athenaTransportLink_Create`/`_Clone` hands it to this module — no computed
locality yet, no forced override, no pending events (section 3: flags are
set after creation by `_setConnectLinkState` and `_TCPOpen`). -/
def LinkState.fresh : LinkState := ⟨false, .unforced, false, false⟩

/-- The behaviour one `_TCPSend` write loop run from `writeCount` bytes
written and system call index `k` exhibits (the invariant proved about
`sendLoopF`): the buffer is always released; on success every consumed
write result was positive and the consumed results cover `length` bytes,
with no statistic and no error event; on failure the run ends at the first
non-positive result, `receive_ShortWrite` grows by one exactly when that
result is not `-1`, and the error event is raised exactly when it is `-1`
with `errno = EPIPE`. -/
def SendRunSpec (writes : Nat → Int) (epipe : Nat → Bool) (length writeCount k : Nat)
    (o : SendOutcome) : Prop :=
  o.bufferReleased = true ∧ k ≤ o.calls ∧
  (o.ret = 0 →
    (∀ i, k ≤ i → i < o.calls → 0 < writes i) ∧
    length ≤ writeCount + sumWritesFrom writes k (o.calls - k) ∧
    o.shortWriteDelta = 0 ∧ o.errorEvent = false) ∧
  (o.ret ≠ 0 →
    o.ret = -1 ∧ k < o.calls ∧ writes (o.calls - 1) ≤ 0 ∧
    (∀ i, k ≤ i → i < o.calls - 1 → 0 < writes i) ∧
    o.shortWriteDelta = (if writes (o.calls - 1) = -1 then 0 else 1) ∧
    o.errorEvent = (if writes (o.calls - 1) = -1 then epipe (o.calls - 1) else false))

/-! ## Theorems -/

/-- The flush loop drains every byte buffered at the moment it starts,
whenever it is given at least `avail` fuel (which `tcpReceive` does). -/
theorem flushLoopF_all : ∀ fuel avail, avail ≤ fuel → flushLoopF fuel avail = 0 := by
  intro fuel
  induction fuel with
  | zero =>
    intro avail h
    have h0 : avail = 0 := Nat.le_zero.mp h
    subst h0; rfl
  | succ fuel ih =>
    intro avail h
    rw [flushLoopF]
    have hM : MAXPATHLEN = 1024 := rfl
    by_cases hc : min MAXPATHLEN avail = MAXPATHLEN
    · rw [if_pos hc]
      apply ih
      have hMa : MAXPATHLEN ≤ avail := min_eq_left_iff.mp hc
      rw [hc]
      omega
    · rw [if_neg hc]
      have hlt : avail < MAXPATHLEN := by
        by_contra hge
        push_neg at hge
        exact hc (min_eq_left hge)
      have hr : min MAXPATHLEN avail = avail := min_eq_right (le_of_lt hlt)
      rw [hr]
      omega

/-- C5: the claim reads "for every active open in which a step fails
(socket creation, connect, socket-option setting, or local-endpoint query),
the open releases all partially allocated state, including closing any
socket descriptor already created, and returns no Link".  The code violates
it: when `connect` fails after `socket` succeeded (lines 428-433), the
private state is freed and no Link returned, but the created descriptor is
never closed (`getsockname` failure, lines 444-450, leaks it the same way,
whereas option-setting failure, lines 435-440, does close it).  This
theorem evaluates `_TCPOpenConnection` at the failing input: the descriptor
was created and not closed. -/
theorem C5_connect_failure_fd_leak :
    tcpOpenConnection ⟨true, false, true, true, true⟩ = ⟨false, true, true, false⟩ := rfl

/-- C6: the claim reads "for every Accept Handler invocation in which the
framework's clone or link-registration call fails, the newly accepted
socket descriptor and the newly built private state are both discarded
(descriptor closed, state released) and no new Link is exposed; the handler
itself returns no message on every path".  The code violates the clone
half: when `athenaTransportLink_Clone` fails (lines 506-512) the new state
is freed and NULL returned, but the accepted descriptor is never closed
(the registration-failure path, lines 518-523, does close it).  This
theorem evaluates `_TCPReceiveListener` at the failing input: no message,
no Link exposed, state freed, descriptor left open. -/
theorem C6_clone_failure_fd_leak :
    tcpReceiveListener ⟨true, false, true⟩ = ⟨none, false, true, false⟩ := rfl

/-- C9: for every non-listener Link created by active open or accept (both
run `_setConnectLinkState` on a freshly created Link, and `_TCPOpen`
then applies the parsed forced-locality flag to the Link it returns), the
Link is classified local exactly when the resolved local and peer
`s_addr` values are equal, unless the forced-locality flag overrides the
classification (`local=false` forces non-local, `local=true` forces
local), and the send event is raised at creation — so a local Link is
initially granted send permission. -/
theorem C9_locality_classification (myAddr peerAddr : Nat) (f : LocalForce) :
    linkClassifiedLocal (applyOpenForce f (setConnectLinkState myAddr peerAddr LinkState.fresh)) =
      (match f with
       | .unforced => decide (peerAddr = myAddr)
       | .forcedLocal => true
       | .forcedNonLocal => false) ∧
    (applyOpenForce f (setConnectLinkState myAddr peerAddr LinkState.fresh)).sendEvent = true := by
  cases f <;>
    simp [linkClassifiedLocal, applyOpenForce, setConnectLinkState, LinkState.fresh]

/-- C10: for every Link state and every timeout value, `_TCPPoll` returns 0
and leaves the Link state untouched — it performs no I/O, modifies no Link
state and reports no event. -/
theorem C10_poll_returns_zero (l : LinkState) (t : Int) : tcpPoll l t = (l, 0) := rfl

/-- C2: for every receive in which the header peek returns the full fixed
header (of positive length) and the decoded packet length is smaller than
the fixed header length, `_TCPReceive` increments
`receive_BadMessageLength`, runs the flush loop which drains all currently
buffered bytes (`flushed = some 0`), and returns no message with no error
event raised and no close of the descriptor. -/
theorem C2_bad_length_flush (w : ReceiveWorld) (s : Stats)
    (h1 : w.headerPeek = .bytes w.fixedHeaderLength)
    (h2 : 0 < w.fixedHeaderLength)
    (h3 : w.packetLength < w.fixedHeaderLength) :
    tcpReceive w s =
      ⟨none, false, false,
        { s with receive_BadMessageLength := s.receive_BadMessageLength + 1 }, some 0⟩ := by
  have hz : w.fixedHeaderLength ≠ 0 := Nat.pos_iff_ne_zero.mp h2
  simp [tcpReceive, h1, hz, h3, flushLoopF_all w.flushAvail w.flushAvail le_rfl]

/-- C2, witnessed: a concrete receive with an 8-byte header peek decoding a
claimed packet length of 4 over a stream with 5 buffered bytes. -/
theorem C2_bad_length_flush_witness :
    tcpReceive ⟨8, .bytes 8, .perr, .peekBytes 0, 4, 5, .bytes 0, fun _ => 0, false⟩ Stats.zero
      = ⟨none, false, false, ⟨0, 1, 0, 0, 0, 0, 0⟩, some 0⟩ :=
  C2_bad_length_flush ⟨8, .bytes 8, .perr, .peekBytes 0, 4, 5, .bytes 0, fun _ => 0, false⟩
    Stats.zero rfl (by decide) (by decide)

/-- Invariant of the `_TCPSend` write loop: from any `writeCount` and call
index `k`, with fuel at least `length - writeCount`, the loop run satisfies
`SendRunSpec`. -/
theorem sendLoopF_spec (writes : Nat → Int) (epipe : Nat → Bool) (length : Nat) :
    ∀ fuel writeCount k, length - writeCount ≤ fuel →
      SendRunSpec writes epipe length writeCount k
        (sendLoopF writes epipe length fuel writeCount k) := by
  intro fuel
  induction fuel with
  | zero =>
    intro wc k h
    rw [sendLoopF]
    unfold SendRunSpec
    dsimp only
    refine ⟨rfl, Nat.le_refl _, fun _ => ?_, fun hne => absurd rfl hne⟩
    refine ⟨fun i h1 h2 => absurd h2 (by omega), ?_, rfl, rfl⟩
    simp only [Nat.sub_self, sumWritesFrom]
    omega
  | succ fuel ih =>
    intro wc k h
    rw [sendLoopF]
    by_cases hlt : wc < length
    · rw [if_pos hlt]
      by_cases hc : writes k ≤ 0
      · rw [if_pos hc]
        by_cases hm : writes k = -1
        · rw [if_pos hm]
          unfold SendRunSpec
          dsimp only
          refine ⟨rfl, by omega, fun h0 => absurd h0 (by decide), fun _ => ?_⟩
          refine ⟨rfl, by omega, ?_, fun i h1 h2 => absurd h2 (by omega), ?_, ?_⟩
          · simpa using hc
          · simp [hm]
          · simp [hm]
        · rw [if_neg hm]
          unfold SendRunSpec
          dsimp only
          refine ⟨rfl, by omega, fun h0 => absurd h0 (by decide), fun _ => ?_⟩
          refine ⟨rfl, by omega, ?_, fun i h1 h2 => absurd h2 (by omega), ?_, ?_⟩
          · simpa using hc
          · simp only [Nat.add_sub_cancel]
            rw [if_neg hm]
          · simp only [Nat.add_sub_cancel]
            rw [if_neg hm]
      · rw [if_neg hc]
        push_neg at hc
        have hpos : 1 ≤ (writes k).toNat := by omega
        have h2 : length - (wc + (writes k).toNat) ≤ fuel := by omega
        have hih := ih (wc + (writes k).toNat) (k + 1) h2
        obtain ⟨hbuf, hk, h0, h1⟩ := hih
        refine ⟨hbuf, by omega, ?_, ?_⟩
        · intro hr
          obtain ⟨hall, hsum, hsd, hee⟩ := h0 hr
          refine ⟨?_, ?_, hsd, hee⟩
          · intro i hi1 hi2
            rcases Nat.eq_or_lt_of_le hi1 with rfl | hgt
            · exact hc
            · exact hall i hgt hi2
          · have hcalls :
                (sendLoopF writes epipe length fuel (wc + (writes k).toNat) (k + 1)).calls - k
                  = ((sendLoopF writes epipe length fuel
                      (wc + (writes k).toNat) (k + 1)).calls - (k + 1)) + 1 := by
              omega
            rw [hcalls, sumWritesFrom]
            omega
        · intro hr
          obtain ⟨hm1, hkc, hw, hall, hsd, hee⟩ := h1 hr
          refine ⟨hm1, by omega, hw, ?_, hsd, hee⟩
          intro i hi1 hi2
          rcases Nat.eq_or_lt_of_le hi1 with rfl | hgt
          · exact hc
          · exact hall i hgt hi2
    · rw [if_neg hlt]
      unfold SendRunSpec
      dsimp only
      refine ⟨rfl, Nat.le_refl _, fun _ => ?_, fun hne => absurd rfl hne⟩
      refine ⟨fun i h1 h2 => absurd h2 (by omega), ?_, rfl, rfl⟩
      simp only [Nat.sub_self, sumWritesFrom]
      omega

/-- C3, amended: `_TCPSend` writes in a loop accumulating bytes written and
returns success only once every byte of the wire representation has been
written (every consumed write result was positive and the consumed results
sum to at least the full length); a write returning zero or negative ends
the attempt with failure; the short-write statistic is recorded exactly
when the terminating result is zero or negative-but-not-`-1` (the code
counts `receive_ShortWrite` for a zero write and then aborts), while a
positive short write below the requested length continues the loop without
recording any statistic; the buffer is released on every exit path. -/
theorem C3_send_loop_amended (writes : Nat → Int) (epipe : Nat → Bool) (length : Nat) :
    (tcpSend writes epipe length).bufferReleased = true ∧
    ((tcpSend writes epipe length).ret = 0 ∨ (tcpSend writes epipe length).ret = -1) ∧
    ((tcpSend writes epipe length).ret = 0 →
      (∀ i, i < (tcpSend writes epipe length).calls → 0 < writes i) ∧
      length ≤ sumWritesFrom writes 0 (tcpSend writes epipe length).calls ∧
      (tcpSend writes epipe length).shortWriteDelta = 0) ∧
    ((tcpSend writes epipe length).ret = -1 →
      writes ((tcpSend writes epipe length).calls - 1) ≤ 0 ∧
      (∀ i, i < (tcpSend writes epipe length).calls - 1 → 0 < writes i) ∧
      (tcpSend writes epipe length).shortWriteDelta =
        (if writes ((tcpSend writes epipe length).calls - 1) = -1 then 0 else 1)) := by
  have h := sendLoopF_spec writes epipe length length 0 0 (by omega)
  rw [show sendLoopF writes epipe length length 0 0 = tcpSend writes epipe length from rfl] at h
  obtain ⟨hbuf, hk, h0, h1⟩ := h
  refine ⟨hbuf, ?_, ?_, ?_⟩
  · by_cases hr : (tcpSend writes epipe length).ret = 0
    · exact Or.inl hr
    · exact Or.inr (h1 hr).1
  · intro hr
    obtain ⟨hall, hsum, hsd, _⟩ := h0 hr
    refine ⟨fun i hi => hall i (Nat.zero_le i) hi, ?_, hsd⟩
    simpa using hsum
  · intro hr
    have hne : (tcpSend writes epipe length).ret ≠ 0 := by rw [hr]; decide
    obtain ⟨_, _, hw, hall, hsd, _⟩ := h1 hne
    exact ⟨hw, fun i hi => hall i (Nat.zero_le i) hi, hsd⟩

/-- C3, counterexample to the claim as stated: a send of a 2-byte buffer
whose writes each deliver one byte.  The first write is a short write below
the requested length (it returned 1 of the 2 requested bytes), the loop
continues and the call succeeds after two writes — but `receive_ShortWrite`
is not incremented (`shortWriteDelta = 0`), refuting "a short write below
the requested length is recorded as a statistic".  (The code counts that
statistic only for a write returning zero, and then aborts rather than
continuing, lines 196-209.) -/
theorem C3_short_write_no_statistic :
    tcpSend (fun _ => 1) (fun _ => false) 2 = ⟨0, false, 0, true, 2⟩ := rfl

/-- C4, amended: a post-open write error (the write call returning a
negative result) aborts the attempt with a failure result, and the Link is
flagged failed by setting its error event exactly when the platform
reports broken pipe (`errno == EPIPE`, line 198); any other write error
aborts without setting the error event. -/
theorem C4_write_error_amended (writes : Nat → Int) (epipe : Nat → Bool) (length : Nat) :
    ((tcpSend writes epipe length).ret = 0 →
      ∀ i, i < (tcpSend writes epipe length).calls → 0 < writes i) ∧
    ((tcpSend writes epipe length).ret = -1 →
      writes ((tcpSend writes epipe length).calls - 1) ≤ 0 ∧
      (tcpSend writes epipe length).errorEvent =
        (if writes ((tcpSend writes epipe length).calls - 1) = -1
         then epipe ((tcpSend writes epipe length).calls - 1) else false)) := by
  have h := sendLoopF_spec writes epipe length length 0 0 (by omega)
  rw [show sendLoopF writes epipe length length 0 0 = tcpSend writes epipe length from rfl] at h
  obtain ⟨hbuf, hk, h0, h1⟩ := h
  constructor
  · intro hr i hi
    exact (h0 hr).1 i (Nat.zero_le i) hi
  · intro hr
    have hne : (tcpSend writes epipe length).ret ≠ 0 := by rw [hr]; decide
    obtain ⟨_, _, hw, _, _, hee⟩ := h1 hne
    exact ⟨hw, hee⟩

/-- C4, counterexample to the claim as stated: a send whose first write
returns `-1` with `errno` not `EPIPE`.  The attempt is aborted with `-1`,
but the error event is NOT set (`errorEvent = false`), refuting "a
post-open write error ... flags the Link failed by setting its error
event": the code sets the event only when `errno == EPIPE`
(lines 197-200). -/
theorem C4_negative_write_no_error_event :
    tcpSend (fun _ => -1) (fun _ => false) 1 = ⟨-1, false, 0, true, 1⟩ := rfl

/-- C1: for every connection link whose header peek returns zero bytes, and
every state the spec's EOF classification covers, `_TCPReceive` raises the
Link's error event exactly when that classification says EOF — a not-ready
poll yields not-EOF, a ready poll followed by a would-block peek yields
not-EOF, a zero-byte peek yields EOF, any other peek error yields EOF — and
in every such case the receive returns no message, so the not-EOF case is
"no message yet" without failing the Link. -/
theorem C1_eof_classification (w : ReceiveWorld) (s : Stats) (e : Bool)
    (h1 : w.headerPeek = .bytes 0)
    (h2 : specEOFClassification w.pollRes w.eofPeek = some e) :
    (tcpReceive w s).errorEvent = e ∧ (tcpReceive w s).message = none := by
  have hr : tcpReceive w s =
      ⟨none, (linkIsEOF w.pollRes w.eofPeek s).1, false,
        (linkIsEOF w.pollRes w.eofPeek s).2, none⟩ := by
    simp [tcpReceive, h1]
  rw [hr]
  refine ⟨?_, rfl⟩
  rcases hp : w.pollRes with _ | _ | pollin <;> rw [hp] at h2
  · rcases hk : w.eofPeek with wb | n <;> rw [hk] at h2
    · have h3 : (none : Option Bool) = some e := h2
      exact Option.noConfusion h3
    · have h3 : (none : Option Bool) = some e := h2
      exact Option.noConfusion h3
  · rcases hk : w.eofPeek with wb | n <;> rw [hk] at h2
    · have h3 : some false = some e := h2
      injection h3
    · have h3 : some false = some e := h2
      injection h3
  · cases pollin
    · rcases hk : w.eofPeek with wb | n <;> rw [hk] at h2
      · have h3 : (none : Option Bool) = some e := h2
        exact Option.noConfusion h3
      · have h3 : (none : Option Bool) = some e := h2
        exact Option.noConfusion h3
    · rcases hk : w.eofPeek with wb | n <;> rw [hk] at h2
      · have h3 : some (if wb then false else true) = some e := h2
        injection h3 with h4
        subst h4
        cases wb <;> rfl
      · have h3 : some (decide (n = 0)) = some e := h2
        injection h3 with h4
        subst h4
        by_cases hn : n = 0 <;> simp [linkIsEOF, hn]

/-- C1, witnessed: a zero-byte header peek with a ready poll and a zero-byte
one-byte peek — classified EOF, and the error event is raised with no
message returned. -/
theorem C1_eof_classification_witness :
    (tcpReceive ⟨8, .bytes 0, .ready true, .peekBytes 0, 0, 0, .bytes 0, fun _ => 0, false⟩
        Stats.zero).errorEvent = true ∧
    (tcpReceive ⟨8, .bytes 0, .ready true, .peekBytes 0, 0, 0, .bytes 0, fun _ => 0, false⟩
        Stats.zero).message = none :=
  C1_eof_classification
    ⟨8, .bytes 0, .ready true, .peekBytes 0, 0, 0, .bytes 0, fun _ => 0, false⟩
    Stats.zero true rfl rfl

/-- A path-segment list containing a bad token parses to NULL with
`errno = EINVAL`, whatever had been accumulated before it. -/
theorem parseTokens_bad : ∀ (ts : List String) (cfg : ParseConfig),
    (∃ t ∈ ts, badToken t = true) → parseTokens ts cfg = none := by
  intro ts
  induction ts with
  | nil =>
    intro cfg h
    rcases h with ⟨t, ht, _⟩
    exact absurd ht (List.not_mem_nil t)
  | cons t ts ih =>
    intro cfg h
    rcases h with ⟨u, hu, hbad⟩
    rcases List.mem_cons.mp hu with rfl | hmem
    · by_cases h1 : eqCI u "listener" = true
      · rw [badToken, if_pos h1] at hbad
        exact absurd hbad (by simp)
      · by_cases h2 : startsWithCI u "name%3D" = true
        · cases hscan : scanPct3DValue u with
          | none => simp [parseTokens, h1, h2, hscan]
          | some v =>
            rw [badToken, if_neg h1, if_pos h2, hscan] at hbad
            exact absurd hbad (by simp)
        · by_cases h3 : startsWithCI u "local%3D" = true
          · cases hscan : scanPct3DValue u with
            | none => simp [parseTokens, h1, h2, h3, hscan]
            | some v =>
              rw [badToken, if_neg h1, if_neg h2, if_pos h3, hscan] at hbad
              simp only [Bool.not_eq_eq_eq_not, Bool.not_true, Bool.or_eq_false_iff] at hbad
              simp [parseTokens, h1, h2, h3, hscan, hbad.1, hbad.2]
          · simp [parseTokens, h1, h2, h3]
    · by_cases h1 : eqCI t "listener" = true
      · simp only [parseTokens, if_pos h1]
        exact ih _ ⟨u, hmem, hbad⟩
      · by_cases h2 : startsWithCI t "name%3D" = true
        · cases hscan : scanPct3DValue t with
          | none => simp [parseTokens, h1, h2, hscan]
          | some v =>
            simp only [parseTokens, if_neg h1, if_pos h2, hscan]
            exact ih _ ⟨u, hmem, hbad⟩
        · by_cases h3 : startsWithCI t "local%3D" = true
          · cases hscan : scanPct3DValue t with
            | none => simp [parseTokens, h1, h2, h3, hscan]
            | some v =>
              simp only [parseTokens, if_neg h1, if_neg h2, if_pos h3, hscan]
              by_cases hf : startsWithCI v "false" = true
              · rw [if_pos hf]
                exact ih _ ⟨u, hmem, hbad⟩
              · rw [if_neg hf]
                by_cases ht2 : startsWithCI v "true" = true
                · rw [if_pos ht2]
                  exact ih _ ⟨u, hmem, hbad⟩
                · rw [if_neg ht2]
          · simp [parseTokens, h1, h2, h3]

/-- C7, amended: for every connection URI whose path contains an
unrecognized segment, a malformed `name%3D` value, or a `local%3D` value
that does not begin, case-insensitively, with `true` or `false`, the open
fails with `errno = EINVAL` and returns no Link, and the failure occurs
before any socket is created.  (The code compares the `local%3D` value by
case-insensitive prefix, lines 711-714, so a value such as `truefoo` is
accepted as true rather than rejected.) -/
theorem C7_invalid_segment_amended (ts : List String) (cw : OpenConnWorld)
    (lw : OpenListenerWorld) (h : ∃ t ∈ ts, badToken t = true) :
    tcpOpen ts cw lw = ⟨false, true, false, false, .unforced, none⟩ := by
  simp only [tcpOpen]
  rw [parseTokens_bad ts _ h]

/-- C7, witnessed: the unrecognized segment `bogus` fails the open with
`EINVAL` before any socket is created, whatever the later steps would have
returned. -/
theorem C7_invalid_segment_amended_witness :
    tcpOpen ["bogus"] ⟨true, true, true, true, true⟩
        ⟨true, true, true, true, true, true, true⟩
      = ⟨false, true, false, false, .unforced, none⟩ :=
  C7_invalid_segment_amended ["bogus"] ⟨true, true, true, true, true⟩
    ⟨true, true, true, true, true, true, true⟩ ⟨"bogus", by decide, by decide⟩

/-- C7, counterexample to the claim as stated: the segment
`local%3Dtruefoo` carries a `local%3D` value that is neither `true` nor
`false`, yet the open does not fail with `EINVAL`: the value is matched by
case-insensitive prefix against `true` (line 713), accepted as a forced
local flag, and the open proceeds to create a socket and return a Link. -/
theorem C7_local_value_accepted :
    tcpOpen ["local%3Dtruefoo"] ⟨true, true, true, true, true⟩
        ⟨true, true, true, true, true, true, true⟩
      = ⟨true, false, true, false, .forcedLocal, none⟩ := by decide

/-- `String.append` concatenates the character data. -/
theorem string_data_append (s t : String) : (s ++ t).data = s.data ++ t.data := by
  cases s; cases t; rfl

/-- A colon stays a member of the data under appending on the right. -/
theorem colon_mem_append_left (s t : String) (h : ':' ∈ s.data) : ':' ∈ (s ++ t).data := by
  rw [string_data_append]
  exact List.mem_append_left _ h

/-- A name of the form `x ++ ":" ++ y` with a colon already inside `x`
contains at least two colons, so it is never the fallback name, which
contains exactly one. -/
theorem appended_port_ne_unknown (x y : String) (hx : ':' ∈ x.data) :
    x ++ ":" ++ y ≠ "tcp://Unknown" := by
  intro heq
  have hd : (x ++ ":" ++ y).data = "tcp://Unknown".data := by rw [heq]
  rw [string_data_append, string_data_append] at hd
  have hc := congrArg (List.count ':') hd
  rw [List.count_append, List.count_append] at hc
  have h1 : List.count ':' (":".data) = 1 := by decide
  have h2 : List.count ':' ("tcp://Unknown".data) = 1 := by decide
  have h3 : 0 < List.count ':' x.data := List.count_pos_iff.mpr hx
  omega

/-- C8, amended: absent an explicit override, the derived name is
`tcp://<localhost>:<localport><->peerhost>:<peerport>` when both endpoint
lookups succeed, `tcp://<localhost>:<localport>` when only the local lookup
succeeds (the listener case), and the fallback `tcp://Unknown` is produced
exactly when the local endpoint lookup fails — whatever the peer lookup
returned. -/
theorem C8_name_derivation_amended (myResult peerResult : Int)
    (myHost myPort peerHost peerPort : String) :
    (createNameFromLinkData myResult peerResult myHost myPort peerHost peerPort
        = "tcp://Unknown" ↔ myResult ≠ 0) ∧
    (myResult = 0 ∧ peerResult = 0 →
      createNameFromLinkData myResult peerResult myHost myPort peerHost peerPort
        = "tcp://" ++ myHost ++ ":" ++ myPort ++ "<->" ++ peerHost ++ ":" ++ peerPort) ∧
    (myResult = 0 ∧ peerResult ≠ 0 →
      createNameFromLinkData myResult peerResult myHost myPort peerHost peerPort
        = "tcp://" ++ myHost ++ ":" ++ myPort) := by
  have hcolon : (':' : Char) ∈ "tcp://".data := by decide
  have hconn : ("tcp://" ++ myHost ++ ":" ++ myPort ++ "<->" ++ peerHost ++ ":" ++ peerPort)
      ≠ "tcp://Unknown" :=
    appended_port_ne_unknown _ peerPort
      (colon_mem_append_left _ _ (colon_mem_append_left _ _ (colon_mem_append_left _ _
        (colon_mem_append_left _ _ (colon_mem_append_left _ _ hcolon)))))
  have hlocal : ("tcp://" ++ myHost ++ ":" ++ myPort) ≠ "tcp://Unknown" :=
    appended_port_ne_unknown _ myPort (colon_mem_append_left _ _ hcolon)
  unfold createNameFromLinkData
  by_cases hm : myResult = 0 <;> by_cases hp : peerResult = 0
  · rw [if_pos ⟨hp, hm⟩]
    exact ⟨⟨fun heq => absurd heq hconn, fun hne => absurd hm hne⟩,
      fun _ => rfl, fun hcon => absurd hp hcon.2⟩
  · rw [if_neg (fun hcon => hp hcon.1), if_pos hm]
    exact ⟨⟨fun heq => absurd heq hlocal, fun hne => absurd hm hne⟩,
      fun hcon => absurd hcon.2 hp, fun _ => rfl⟩
  · rw [if_neg (fun hcon => hm hcon.2), if_neg hm]
    exact ⟨⟨fun _ => hm, fun _ => rfl⟩,
      fun hcon => absurd hcon.1 hm, fun hcon => absurd hcon.1 hm⟩
  · rw [if_neg (fun hcon => hm hcon.2), if_neg hm]
    exact ⟨⟨fun _ => hm, fun _ => rfl⟩,
      fun hcon => absurd hcon.1 hm, fun hcon => absurd hcon.1 hm⟩

/-- C8, counterexample to the claim as stated: the local endpoint lookup
fails (`myResult = 1`) while the peer lookup succeeds (`peerResult = 0`),
and the fallback name is produced all the same — refuting "the fallback
tcp://Unknown is produced exactly when both endpoint lookups fail". -/
theorem C8_fallback_single_failure :
    createNameFromLinkData 1 0 "127.0.0.1" "5000" "127.0.0.1" "9999" = "tcp://Unknown" := by
  decide
